import Mathlib

/-!
Verification of the insurance-claims-adjudication repository against its
natural-language specification.

The frontend source (Next.js/TypeScript under src/frontend) is embedded
shallowly: each pure helper function becomes a Lean function over `String`,
`List` and `ℚ`, and each stateful event handler becomes an explicit
state-transition function.  The backend adjudication core is not present in
the repository snapshot (only the frontend and helper scripts are), so the
pipeline of spec sections 4.1-4.4 is modelled from the spec where a claim
needs it; every such definition is marked `Modelled from the spec:`.
-/

namespace InsuranceClaims

/-- JavaScript `String.prototype.toLowerCase()` restricted to the character
set appearing in filenames and statuses: lower-case every character. -/
def toLowerCase (s : String) : String :=
  String.mk (s.data.map Char.toLower)

/-- JavaScript `String.prototype.includes(pat)`: `pat` occurs as a contiguous
substring of `s`. -/
def strContains (s pat : String) : Bool :=
  decide (pat.data <:+: s.data)

/-- The `decision` enum of the spec data model (section 3):
APPROVED | REJECTED | PARTIAL | MANUAL_REVIEW. -/
inductive Decision where
  | APPROVED
  | REJECTED
  | PARTIAL
  | MANUAL_REVIEW
deriving DecidableEq, Fintype, Repr

/-- The wire string for each decision, as the backend serialises it and the
frontend switches on it. -/
def Decision.toName : Decision → String
  | .APPROVED => "APPROVED"
  | .REJECTED => "REJECTED"
  | .PARTIAL => "PARTIAL"
  | .MANUAL_REVIEW => "MANUAL_REVIEW"

namespace FileUpload

/-- Base CSS classes shared by every badge in
`src/frontend/components/FileUpload.tsx`, `getDecisionBadge`. -/
def badgeBaseClasses : String :=
  "inline-flex items-center px-3 py-1 rounded-full text-sm font-medium"

/-- `getDecisionBadge` from `src/frontend/components/FileUpload.tsx`
(lines 367-381): switch on the decision string, default to the gray badge. -/
def getDecisionBadge (decision : String) : String :=
  if decision = "APPROVED" then badgeBaseClasses ++ " bg-green-100 text-green-800"
  else if decision = "REJECTED" then badgeBaseClasses ++ " bg-red-100 text-red-800"
  else if decision = "PARTIAL" then badgeBaseClasses ++ " bg-yellow-100 text-yellow-800"
  else if decision = "MANUAL_REVIEW" then badgeBaseClasses ++ " bg-blue-100 text-blue-800"
  else badgeBaseClasses ++ " bg-gray-100 text-gray-800"

/-- The default (gray) badge returned for any unrecognised decision string. -/
def defaultBadge : String :=
  badgeBaseClasses ++ " bg-gray-100 text-gray-800"

end FileUpload

/-- The record returned by `getStatusDisplay`: display text, icon and a CSS
colour class. -/
structure StatusDisplay where
  text : String
  icon : String
  color : String
deriving DecidableEq, Repr

namespace Step2Page

/-- `getStatusDisplay` from `src/frontend/app/upload/step2/page.tsx`
(lines 118-131).  The icon strings are the exact (mojibake) characters stored
in that file. -/
def getStatusDisplay (status : String) : StatusDisplay :=
  if status = "uploaded" then
    { text := "Queued", icon := "‚è≥", color := "text-gray-500" }
  else if status = "processing" then
    { text := "Extracting Information...", icon := "‚öôÔ∏è", color := "text-blue-600 animate-pulse" }
  else if status = "processed" then
    { text := "Done", icon := "‚úÖ", color := "text-green-600" }
  else if status = "failed" then
    { text := "Failed", icon := "‚ùå", color := "text-red-600" }
  else
    { text := "Waiting...", icon := "üïí", color := "text-gray-400" }

end Step2Page

namespace UploadPage

/-- The inline `getStatusDisplay` helper from
`src/frontend/app/upload/page.tsx` (lines 576-589). -/
def getStatusDisplay (status : String) : StatusDisplay :=
  if status = "uploaded" then
    { text := "Queued", icon := "⏳", color := "text-gray-500" }
  else if status = "processing" then
    { text := "Extracting Information...", icon := "⚙️", color := "text-blue-600 animate-pulse" }
  else if status = "processed" then
    { text := "Done", icon := "✅", color := "text-green-600" }
  else if status = "failed" then
    { text := "Failed", icon := "❌", color := "text-red-600" }
  else
    { text := "Waiting...", icon := "🕒", color := "text-gray-400" }

end UploadPage

/-- C3: an adjudication decision takes exactly one of the four values
APPROVED, REJECTED, PARTIAL, MANUAL_REVIEW, and `getDecisionBadge` maps each
of the four decision strings to a distinct badge class while mapping every
other input string to the default gray class. -/
theorem decision_badge_classifies :
    (∀ d : Decision, d.toName ∈ ["APPROVED", "REJECTED", "PARTIAL", "MANUAL_REVIEW"]) ∧
    (∀ d₁ d₂ : Decision,
      FileUpload.getDecisionBadge d₁.toName = FileUpload.getDecisionBadge d₂.toName → d₁ = d₂) ∧
    (∀ d : Decision, FileUpload.getDecisionBadge d.toName ≠ FileUpload.defaultBadge) ∧
    (∀ s : String, s ∉ ["APPROVED", "REJECTED", "PARTIAL", "MANUAL_REVIEW"] →
      FileUpload.getDecisionBadge s = FileUpload.defaultBadge) := by
  refine ⟨by decide, by decide, by decide, ?_⟩
  intro s hs
  simp only [List.mem_cons, List.not_mem_nil, or_false, not_or] at hs
  obtain ⟨h₁, h₂, h₃, h₄⟩ := hs
  simp [FileUpload.getDecisionBadge, FileUpload.defaultBadge, h₁, h₂, h₃, h₄]

/-- Witness for C3: the default branch at the concrete non-decision string
"PENDING". -/
theorem decision_badge_classifies_witness :
    FileUpload.getDecisionBadge "PENDING" = FileUpload.defaultBadge :=
  decision_badge_classifies.2.2.2 "PENDING" (by decide)

/-- C5: both copies of `getStatusDisplay` are total over strings, map the
four document statuses uploaded, processing, processed, failed to the
displays Queued, Extracting Information..., Done, Failed respectively, and
map every other string to the Waiting... default. -/
theorem status_display_total :
    ((Step2Page.getStatusDisplay "uploaded").text = "Queued" ∧
     (UploadPage.getStatusDisplay "uploaded").text = "Queued") ∧
    ((Step2Page.getStatusDisplay "processing").text = "Extracting Information..." ∧
     (UploadPage.getStatusDisplay "processing").text = "Extracting Information...") ∧
    ((Step2Page.getStatusDisplay "processed").text = "Done" ∧
     (UploadPage.getStatusDisplay "processed").text = "Done") ∧
    ((Step2Page.getStatusDisplay "failed").text = "Failed" ∧
     (UploadPage.getStatusDisplay "failed").text = "Failed") ∧
    (∀ s : String, s ∉ ["uploaded", "processing", "processed", "failed"] →
      (Step2Page.getStatusDisplay s).text = "Waiting..." ∧
      (UploadPage.getStatusDisplay s).text = "Waiting...") := by
  refine ⟨by decide, by decide, by decide, by decide, ?_⟩
  intro s hs
  simp only [List.mem_cons, List.not_mem_nil, or_false, not_or] at hs
  obtain ⟨h₁, h₂, h₃, h₄⟩ := hs
  constructor
  · simp [Step2Page.getStatusDisplay, h₁, h₂, h₃, h₄]
  · simp [UploadPage.getStatusDisplay, h₁, h₂, h₃, h₄]

/-- Witness for C5: the default branch at the concrete string "queued"
(which is not one of the four statuses). -/
theorem status_display_total_witness :
    (Step2Page.getStatusDisplay "queued").text = "Waiting..." ∧
    (UploadPage.getStatusDisplay "queued").text = "Waiting..." :=
  status_display_total.2.2.2.2 "queued" (by decide)

namespace MultiFileUpload

/-- `detectDocumentType` from `src/frontend/components/MultiFileUpload.tsx`
(lines 140-146): keyword search over the lower-cased filename. -/
def detectDocumentType (filename : String) : String :=
  let lower := toLowerCase filename
  if strContains lower "prescription" || strContains lower "rx" then "prescription"
  else if strContains lower "bill" || strContains lower "invoice" then "bill"
  else if strContains lower "report" || strContains lower "test" then "report"
  else "other"

end MultiFileUpload

namespace FileUpload

/-- The inline document-type keyword detection in `handleSubmit` of
`src/frontend/components/FileUpload.tsx` (lines 308-316): starts from
documentType = other and overrides it by keyword match on the lower-cased
filename. -/
def detectDocumentType (filename : String) : String :=
  let fileName := toLowerCase filename
  if strContains fileName "prescription" || strContains fileName "rx" then "prescription"
  else if strContains fileName "bill" || strContains fileName "invoice" ||
          strContains fileName "receipt" then "bill"
  else if strContains fileName "report" || strContains fileName "lab" ||
          strContains fileName "test" then "report"
  else "other"

end FileUpload

/-- The spec's `document_type` enumeration (section 3):
prescription | bill | report | pharmacy_bill | other. -/
def documentTypeEnum : List String :=
  ["prescription", "bill", "report", "pharmacy_bill", "other"]

/-- C6: `detectDocumentType` always returns one of prescription, bill,
report, other — each a member of the spec's document_type enumeration — and
when a filename matches keywords of several types, prescription takes
precedence over bill and bill over report. -/
theorem detect_document_type_range :
    (∀ fn : String, MultiFileUpload.detectDocumentType fn ∈
      ["prescription", "bill", "report", "other"]) ∧
    (∀ t ∈ ["prescription", "bill", "report", "other"], t ∈ documentTypeEnum) ∧
    (∀ fn : String,
      (strContains (toLowerCase fn) "prescription" || strContains (toLowerCase fn) "rx") = true →
      MultiFileUpload.detectDocumentType fn = "prescription") ∧
    (∀ fn : String,
      (strContains (toLowerCase fn) "bill" || strContains (toLowerCase fn) "invoice") = true →
      MultiFileUpload.detectDocumentType fn = "prescription" ∨
      MultiFileUpload.detectDocumentType fn = "bill") ∧
    (∀ fn : String,
      (strContains (toLowerCase fn) "report" || strContains (toLowerCase fn) "test") = true →
      MultiFileUpload.detectDocumentType fn = "prescription" ∨
      MultiFileUpload.detectDocumentType fn = "bill" ∨
      MultiFileUpload.detectDocumentType fn = "report") := by
  refine ⟨?_, by decide, ?_, ?_, ?_⟩
  · intro fn
    simp only [MultiFileUpload.detectDocumentType]
    split
    · simp
    · split
      · simp
      · split <;> simp
  · intro fn h
    simp [MultiFileUpload.detectDocumentType, h]
  · intro fn h
    by_cases hp : (strContains (toLowerCase fn) "prescription" ||
        strContains (toLowerCase fn) "rx") = true
    · left
      simp [MultiFileUpload.detectDocumentType, hp]
    · right
      rw [Bool.not_eq_true] at hp
      simp [MultiFileUpload.detectDocumentType, hp, h]
  · intro fn h
    by_cases hp : (strContains (toLowerCase fn) "prescription" ||
        strContains (toLowerCase fn) "rx") = true
    · left
      simp [MultiFileUpload.detectDocumentType, hp]
    · rw [Bool.not_eq_true] at hp
      by_cases hb : (strContains (toLowerCase fn) "bill" ||
          strContains (toLowerCase fn) "invoice") = true
      · right; left
        simp [MultiFileUpload.detectDocumentType, hp, hb]
      · right; right
        rw [Bool.not_eq_true] at hb
        simp [MultiFileUpload.detectDocumentType, hp, hb, h]

/-- Witness for C6: a filename matching prescription, bill and report
keywords at once is classified prescription; one matching bill and report
keywords is classified bill. -/
theorem detect_document_type_range_witness :
    MultiFileUpload.detectDocumentType "Rx_bill_test.pdf" = "prescription" ∧
    (MultiFileUpload.detectDocumentType "bill_report.pdf" = "prescription" ∨
     MultiFileUpload.detectDocumentType "bill_report.pdf" = "bill") :=
  ⟨detect_document_type_range.2.2.1 "Rx_bill_test.pdf" (by decide),
   detect_document_type_range.2.2.2.1 "bill_report.pdf" (by decide)⟩

/-- Counterexample to C10 as stated: on the filename "receipt.pdf" the
MultiFileUpload detector returns other while the ClaimForm inline detector
returns bill, so the two detectors are not equal on every filename. -/
theorem detectors_differ_on_receipt :
    MultiFileUpload.detectDocumentType "receipt.pdf" = "other" ∧
    FileUpload.detectDocumentType "receipt.pdf" = "bill" ∧
    MultiFileUpload.detectDocumentType "receipt.pdf" ≠
      FileUpload.detectDocumentType "receipt.pdf" := by
  refine ⟨by decide, by decide, by decide⟩

/-- C10 (amended): the two detectors compute the same document_type for
every filename whose lower-cased form contains neither "receipt" nor "lab";
on filenames containing those keywords they can differ. -/
theorem detectors_agree_outside_receipt_lab (fn : String)
    (hreceipt : strContains (toLowerCase fn) "receipt" = false)
    (hlab : strContains (toLowerCase fn) "lab" = false) :
    MultiFileUpload.detectDocumentType fn = FileUpload.detectDocumentType fn := by
  simp only [MultiFileUpload.detectDocumentType, FileUpload.detectDocumentType,
    hreceipt, hlab, Bool.or_false]

/-- Witness for C10's amended theorem: the two detectors agree at the
concrete filename "hospital_bill.jpg". -/
theorem detectors_agree_outside_receipt_lab_witness :
    MultiFileUpload.detectDocumentType "hospital_bill.jpg" =
      FileUpload.detectDocumentType "hospital_bill.jpg" :=
  detectors_agree_outside_receipt_lab "hospital_bill.jpg" (by decide) (by decide)

/-- The JSON body posted to `POST /api/claims/` by the upload flow's
auto-creation of a claim. -/
structure ClaimCreateRequest where
  policy_holder_id : String
  claimed_amount : ℚ
  treatment_type : String
  provider_network : Bool
  treatment_date : String
deriving DecidableEq, Repr

namespace Step1Page

/-- `createClaim` from `src/frontend/app/upload/step1/page.tsx`
(lines 65-98): the request body it posts, with `nowISO` standing for
`new Date().toISOString()`. -/
def createClaimBody (policyHolderId nowISO : String) : ClaimCreateRequest :=
  { policy_holder_id := policyHolderId
    claimed_amount := 0
    treatment_type := "consultation"
    provider_network := false
    treatment_date := nowISO }

end Step1Page

namespace UploadPage

/-- `createClaim` from `src/frontend/app/upload/page.tsx` (lines 110-152):
the request body it posts, identical to the step1 copy. -/
def createClaimBody (policyHolderId nowISO : String) : ClaimCreateRequest :=
  { policy_holder_id := policyHolderId
    claimed_amount := 0
    treatment_type := "consultation"
    provider_network := false
    treatment_date := nowISO }

end UploadPage

/-- C8: every claim auto-created by the upload flow is posted with
claimed_amount 0.0, treatment_type consultation, provider_network false and
treatment_date the current date; hence its claimed_amount is below any
positive configured minimum amount.  Both copies of `createClaim` post the
same body. -/
theorem create_claim_defaults (pid now : String) :
    (Step1Page.createClaimBody pid now).claimed_amount = 0 ∧
    (Step1Page.createClaimBody pid now).treatment_type = "consultation" ∧
    (Step1Page.createClaimBody pid now).provider_network = false ∧
    (Step1Page.createClaimBody pid now).treatment_date = now ∧
    UploadPage.createClaimBody pid now = Step1Page.createClaimBody pid now ∧
    (∀ minAmount : ℚ, 0 < minAmount →
      (Step1Page.createClaimBody pid now).claimed_amount < minAmount) := by
  refine ⟨rfl, rfl, rfl, rfl, rfl, ?_⟩
  intro minAmount hpos
  simpa [Step1Page.createClaimBody] using hpos

/-- Witness for C8: the concrete body for policy holder "PH-1" created on
2026-10-11 stays below the configured minimum of 500. -/
theorem create_claim_defaults_witness :
    (Step1Page.createClaimBody "PH-1" "2026-10-11T00:00:00.000Z").claimed_amount = 0 ∧
    (Step1Page.createClaimBody "PH-1" "2026-10-11T00:00:00.000Z").claimed_amount < 500 :=
  ⟨(create_claim_defaults "PH-1" "2026-10-11T00:00:00.000Z").1,
   (create_claim_defaults "PH-1" "2026-10-11T00:00:00.000Z").2.2.2.2.2 500 (by simp)⟩

/-- The claim record served by `GET /api/claims/{id}` and displayed by the
step-3 status page (`ClaimData` interface in
`src/frontend/app/upload/step3/page.tsx`). -/
structure ClaimData where
  claim_id : String
  status : String
  decision : Option String
  notes : Option String
  next_steps : Option String
  approved_amount : Option ℚ
  claimed_amount : Option ℚ
  rejection_reasons : Option (List String)
  confidence_score : Option ℚ
  processed_at : Option String
deriving DecidableEq, Repr

/-- A server-sent event as seen by `eventSource.onmessage`: either
`JSON.parse` throws (malformed payload) or it yields an object whose `type`
field drives the handler. -/
inductive SSEMessage where
  | malformed
  | event (type : String)
deriving DecidableEq, Repr

namespace Step3Page

/-- The step-3 page state relevant to the SSE handler: the displayed claim
record and how many times `fetchClaimData` has been called. -/
structure PageState where
  claimData : Option ClaimData
  fetchCount : Nat
deriving DecidableEq, Repr

/-- `fetchClaimData` from `src/frontend/app/upload/step3/page.tsx`
(lines 78-90): on a successful response the claim record is replaced, on a
failed request the catch block leaves it unchanged; either way one fetch is
performed. -/
def fetchClaimData (response : Option ClaimData) (st : PageState) : PageState :=
  { claimData :=
      match response with
      | some d => some d
      | none => st.claimData
    fetchCount := st.fetchCount + 1 }

/-- The `eventSource.onmessage` handler of the step-3 page (lines 60-71):
parse the event data; if the parsed message has type "claim_decision",
refetch the claim, otherwise do nothing (parse failures are caught and
logged). -/
def onMessage (response : Option ClaimData) (st : PageState) (msg : SSEMessage) : PageState :=
  match msg with
  | .malformed => st
  | .event t => if t = "claim_decision" then fetchClaimData response st else st

end Step3Page

/-- C4: for every SSE message received by the step-3 page, a parsed message
of type "claim_decision" triggers a refetch of the claim record, and every
message whose type differs (or that fails to parse) leaves the page state —
in particular the displayed claim data — unchanged. -/
theorem step3_sse_handler_frame (response : Option ClaimData) (st : Step3Page.PageState) :
    ((Step3Page.onMessage response st (.event "claim_decision")).fetchCount =
      st.fetchCount + 1) ∧
    (∀ t : String, t ≠ "claim_decision" →
      Step3Page.onMessage response st (.event t) = st) ∧
    Step3Page.onMessage response st .malformed = st := by
  refine ⟨rfl, ?_, rfl⟩
  intro t ht
  simp [Step3Page.onMessage, ht]

/-- Witness for C4: a concrete document_update event leaves a concrete page
state unchanged. -/
theorem step3_sse_handler_frame_witness :
    Step3Page.onMessage none { claimData := none, fetchCount := 0 }
      (.event "document_update") = { claimData := none, fetchCount := 0 } :=
  (step3_sse_handler_frame none { claimData := none, fetchCount := 0 }).2.1
    "document_update" (by decide)

/-- An entry of the `documents` state list of the upload pages
(`UploadedDocument` interface in `src/frontend/app/upload/page.tsx`). -/
structure UploadedDocument where
  file_id : String
  filename : String
  document_type : String
  status : String
  extracted_data : Option String
deriving DecidableEq, Repr

/-- The payload of a `document_update` server-sent event; `filename` and
`document_type` may be absent (the handler substitutes defaults). -/
structure DocumentUpdateEvent where
  file_id : String
  filename : Option String
  document_type : Option String
  status : String
  extracted_data : Option String
deriving DecidableEq, Repr

/-- The new list entry appended by the reducer when the event's file_id is
not yet in the list. -/
def DocumentUpdateEvent.toNewDocument (ev : DocumentUpdateEvent) : UploadedDocument :=
  { file_id := ev.file_id
    filename := ev.filename.getD "Unknown"
    document_type := ev.document_type.getD "auto"
    status := ev.status
    extracted_data := ev.extracted_data }

namespace UploadPage

/-- The `document_update` branch of `eventSource.onmessage` in
`src/frontend/app/upload/page.tsx` (lines 296-319): `findIndex` on file_id;
on a hit, map over the list replacing status and extracted_data of matching
entries; on a miss, append a new entry with defaulted filename and
document_type. -/
def applyDocumentUpdate (docs : List UploadedDocument) (ev : DocumentUpdateEvent) :
    List UploadedDocument :=
  match docs.findIdx? (fun doc => doc.file_id == ev.file_id) with
  | some _ =>
      docs.map fun doc =>
        if doc.file_id == ev.file_id then
          { doc with status := ev.status, extracted_data := ev.extracted_data }
        else doc
  | none => docs ++ [ev.toNewDocument]

end UploadPage

namespace Step2Page

/-- The identical `document_update` branch of `eventSource.onmessage` in
`src/frontend/app/upload/step2/page.tsx` (lines 73-93). -/
def applyDocumentUpdate (docs : List UploadedDocument) (ev : DocumentUpdateEvent) :
    List UploadedDocument :=
  match docs.findIdx? (fun doc => doc.file_id == ev.file_id) with
  | some _ =>
      docs.map fun doc =>
        if doc.file_id == ev.file_id then
          { doc with status := ev.status, extracted_data := ev.extracted_data }
        else doc
  | none => docs ++ [ev.toNewDocument]

end Step2Page

/-- C9: the document_update reducer preserves uniqueness of file_id: on a
matching file_id exactly the matching entry's status and extracted_data are
replaced and every other entry is unchanged, otherwise exactly one new entry
is appended; hence a list with pairwise-distinct file_ids stays
pairwise-distinct.  Both page copies of the reducer agree. -/
theorem document_update_preserves_unique_ids
    (docs : List UploadedDocument) (ev : DocumentUpdateEvent) :
    ((docs.map (fun d => d.file_id)).Nodup →
      ((UploadPage.applyDocumentUpdate docs ev).map (fun d => d.file_id)).Nodup) ∧
    ((∃ d ∈ docs, d.file_id = ev.file_id) →
      (UploadPage.applyDocumentUpdate docs ev).length = docs.length ∧
      ∀ i : Fin docs.length,
        (UploadPage.applyDocumentUpdate docs ev)[i.val]? =
          some (if (docs.get i).file_id = ev.file_id then
              { docs.get i with status := ev.status, extracted_data := ev.extracted_data }
            else docs.get i)) ∧
    ((∀ d ∈ docs, d.file_id ≠ ev.file_id) →
      UploadPage.applyDocumentUpdate docs ev = docs ++ [ev.toNewDocument]) ∧
    Step2Page.applyDocumentUpdate docs ev = UploadPage.applyDocumentUpdate docs ev := by
  refine ⟨?_, ?_, ?_, rfl⟩
  · intro hnodup
    unfold UploadPage.applyDocumentUpdate
    cases hidx : docs.findIdx? (fun doc => doc.file_id == ev.file_id) with
    | none =>
        rw [List.findIdx?_eq_none_iff] at hidx
        rw [List.map_append]
        refine List.Nodup.append hnodup (by simp) ?_
        intro a ha hb
        simp only [List.map_cons, List.map_nil, List.mem_singleton] at hb
        subst hb
        obtain ⟨d, hd, hfid⟩ := List.mem_map.mp ha
        have hback := hidx d hd
        rw [beq_eq_false_iff_ne] at hback
        exact hback (hfid.trans rfl)
    | some i =>
        rw [List.map_map]
        have : docs.map
            ((fun d => d.file_id) ∘ fun doc =>
              if doc.file_id == ev.file_id then
                { doc with status := ev.status, extracted_data := ev.extracted_data }
              else doc) = docs.map (fun d => d.file_id) := by
          refine List.map_congr_left ?_
          intro a _
          by_cases h : a.file_id = ev.file_id <;> simp [h]
        rw [this]
        exact hnodup
  · rintro ⟨d, hd, hfid⟩
    have hidx : docs.findIdx? (fun doc => doc.file_id == ev.file_id) ≠ none := by
      rw [Ne, List.findIdx?_eq_none_iff]
      intro hall
      have := hall d hd
      rw [beq_eq_false_iff_ne] at this
      exact this hfid
    obtain ⟨j, hj⟩ := Option.ne_none_iff_exists'.mp hidx
    unfold UploadPage.applyDocumentUpdate
    rw [hj]
    refine ⟨List.length_map _ _, ?_⟩
    intro i
    rw [List.getElem?_map, List.getElem?_eq_getElem i.isLt]
    simp only [Option.map_some', List.get_eq_getElem]
    by_cases h : docs[i.val].file_id = ev.file_id <;> simp [h]
  · intro hall
    have hidx : docs.findIdx? (fun doc => doc.file_id == ev.file_id) = none := by
      rw [List.findIdx?_eq_none_iff]
      intro x hx
      rw [beq_eq_false_iff_ne]
      exact hall x hx
    unfold UploadPage.applyDocumentUpdate
    rw [hidx]

/-- Witness for C9: a concrete two-document list with distinct file_ids; an
event matching the first entry keeps the ids Nodup, an event with a fresh
file_id appends exactly one entry. -/
theorem document_update_preserves_unique_ids_witness :
    ((UploadPage.applyDocumentUpdate
        [{ file_id := "f1", filename := "rx.pdf", document_type := "prescription",
           status := "uploaded", extracted_data := none },
         { file_id := "f2", filename := "bill.pdf", document_type := "bill",
           status := "uploaded", extracted_data := none }]
        { file_id := "f1", filename := some "rx.pdf", document_type := some "prescription",
          status := "processed", extracted_data := some "fields" }).map
      (fun d => d.file_id)).Nodup ∧
    UploadPage.applyDocumentUpdate
        [{ file_id := "f1", filename := "rx.pdf", document_type := "prescription",
           status := "uploaded", extracted_data := none }]
        { file_id := "f3", filename := none, document_type := none,
          status := "uploaded", extracted_data := none } =
      [{ file_id := "f1", filename := "rx.pdf", document_type := "prescription",
         status := "uploaded", extracted_data := none }] ++
      [DocumentUpdateEvent.toNewDocument
        { file_id := "f3", filename := none, document_type := none,
          status := "uploaded", extracted_data := none }] :=
  ⟨(document_update_preserves_unique_ids _ _).1 (by decide),
   (document_update_preserves_unique_ids _ _).2.2.1 (by decide)⟩

namespace MultiFileUpload

/-- The `status` field of `FileUploadInfo` in
`src/frontend/components/MultiFileUpload.tsx`:
pending | uploading | processing | complete | error. -/
inductive FileStatus where
  | pending
  | uploading
  | processing
  | complete
  | error
deriving DecidableEq, Repr

/-- The outcome of one status fetch inside `pollForCompletion`: the fetch or
JSON parse may throw (caught and only logged), or it returns the document's
status together with its extracted data. -/
inductive PollResponse where
  | fetchError
  | ok (status : String) (extracted : Option String)
deriving DecidableEq, Repr

/-- `maxAttempts` constant of `pollForCompletion` (30 one-second ticks). -/
def maxAttempts : Nat := 30

/-- The mutable state of one `pollForCompletion` loop: the `attempts`
counter, the file's entry as written by `updateFileStatus`, and whether the
interval is still running (`clearInterval` not yet called). -/
structure PollState where
  attempts : Nat
  fileStatus : FileStatus
  progress : Nat
  extracted : Option String
  active : Bool
deriving DecidableEq, Repr

/-- One interval tick of `pollForCompletion`
(`src/frontend/components/MultiFileUpload.tsx` lines 99-121): increment
`attempts`; on a successful fetch, mark complete and stop when the status is
processed, else mark error and stop when `attempts >= maxAttempts`; a thrown
fetch is caught and logged without clearing the interval. -/
def pollTick (st : PollState) (resp : PollResponse) : PollState :=
  if st.active then
    let attempts := st.attempts + 1
    match resp with
    | .fetchError => { st with attempts := attempts }
    | .ok status extracted =>
        if status = "processed" then
          { attempts := attempts, fileStatus := .complete, progress := 100,
            extracted := extracted, active := false }
        else if maxAttempts ≤ attempts then
          { attempts := attempts, fileStatus := .error, progress := 100,
            extracted := none, active := false }
        else { st with attempts := attempts }
  else st

/-- The state when the poll starts: `updateFileStatus(fileId, 'processing',
100)` has just run and no attempt has been made. -/
def initialPollState : PollState :=
  { attempts := 0, fileStatus := .processing, progress := 100,
    extracted := none, active := true }

/-- Run `pollForCompletion` against the sequence of fetch outcomes the
backend would deliver, one per one-second tick. -/
def runPoll (resps : List PollResponse) : PollState :=
  resps.foldl pollTick initialPollState

/-- A fetch outcome that reports the document as processed. -/
def isProcessed (r : PollResponse) : Bool :=
  match r with
  | .fetchError => false
  | .ok status _ => status = "processed"

end MultiFileUpload

/-- A stopped poll loop is stuck: once `clearInterval` has run no tick
changes the state. -/
theorem pollTick_inactive (st : MultiFileUpload.PollState) (r : MultiFileUpload.PollResponse)
    (h : st.active = false) : MultiFileUpload.pollTick st r = st := by
  simp [MultiFileUpload.pollTick, h]

/-- A stopped poll loop stays stopped across any remaining ticks. -/
theorem foldl_pollTick_inactive (resps : List MultiFileUpload.PollResponse)
    (st : MultiFileUpload.PollState) (h : st.active = false) :
    resps.foldl MultiFileUpload.pollTick st = st := by
  induction resps with
  | nil => rfl
  | cons r rs ih => rw [List.foldl_cons, pollTick_inactive st r h]; exact ih

/-- Counterexample to C7 as stated: when every status fetch throws (e.g. the
backend is unreachable), the catch branch never clears the interval, so
after 31 ticks the poll has made 31 attempts and is still running — the
"at most 30 polling attempts" bound fails. -/
theorem poll_attempts_counterexample :
    (MultiFileUpload.runPoll
      (List.replicate 31 MultiFileUpload.PollResponse.fetchError)).attempts = 31 ∧
    (MultiFileUpload.runPoll
      (List.replicate 31 MultiFileUpload.PollResponse.fetchError)).active = true := by
  decide

/-- Invariant of the poll loop started with `attempts = a`, still running and
showing processing, for a response stream without fetch errors. -/
theorem poll_loop_invariant :
    ∀ (resps : List MultiFileUpload.PollResponse) (a : Nat),
      MultiFileUpload.PollResponse.fetchError ∉ resps → a < 30 →
      (resps.foldl MultiFileUpload.pollTick
          { attempts := a, fileStatus := .processing, progress := 100,
            extracted := none, active := true }).attempts ≤ 30 ∧
      ((∃ i < 30 - a, ∃ r, resps[i]? = some r ∧ MultiFileUpload.isProcessed r = true) →
        (resps.foldl MultiFileUpload.pollTick
            { attempts := a, fileStatus := .processing, progress := 100,
              extracted := none, active := true }).fileStatus = .complete ∧
        (resps.foldl MultiFileUpload.pollTick
            { attempts := a, fileStatus := .processing, progress := 100,
              extracted := none, active := true }).active = false) ∧
      ((∀ (i : Nat) (r : MultiFileUpload.PollResponse), resps[i]? = some r → MultiFileUpload.isProcessed r = false) →
        30 - a ≤ resps.length →
        (resps.foldl MultiFileUpload.pollTick
            { attempts := a, fileStatus := .processing, progress := 100,
              extracted := none, active := true }).fileStatus = .error ∧
        (resps.foldl MultiFileUpload.pollTick
            { attempts := a, fileStatus := .processing, progress := 100,
              extracted := none, active := true }).attempts = 30 ∧
        (resps.foldl MultiFileUpload.pollTick
            { attempts := a, fileStatus := .processing, progress := 100,
              extracted := none, active := true }).active = false) := by
  intro resps
  induction resps with
  | nil =>
      intro a _ ha
      refine ⟨by simpa using ha.le, ?_, ?_⟩
      · rintro ⟨i, _, r, hr, _⟩
        simp at hr
      · intro _ hlen
        simp only [List.length_nil] at hlen
        omega
  | cons r rs ih =>
      intro a herr ha
      have hrne : r ≠ .fetchError := fun h => herr (h ▸ List.mem_cons_self r rs)
      have herr' : MultiFileUpload.PollResponse.fetchError ∉ rs :=
        fun h => herr (List.mem_cons_of_mem r h)
      cases r with
      | fetchError => exact absurd rfl hrne
      | ok s ex =>
        rw [List.foldl_cons]
        by_cases hs : s = "processed"
        · subst hs
          have hstep : MultiFileUpload.pollTick
              { attempts := a, fileStatus := .processing, progress := 100,
                extracted := none, active := true } (.ok "processed" ex) =
              { attempts := a + 1, fileStatus := .complete, progress := 100,
                extracted := ex, active := false } := by
            simp [MultiFileUpload.pollTick]
          rw [hstep, foldl_pollTick_inactive _ _ rfl]
          refine ⟨by simp; omega, fun _ => ⟨rfl, rfl⟩, ?_⟩
          intro hall _
          have h0 := hall 0 (.ok "processed" ex) (by simp)
          simp [MultiFileUpload.isProcessed] at h0
        · by_cases hcap : 30 ≤ a + 1
          · have ha29 : a = 29 := by omega
            subst ha29
            have hstep : MultiFileUpload.pollTick
                { attempts := 29, fileStatus := .processing, progress := 100,
                  extracted := none, active := true } (.ok s ex) =
                { attempts := 30, fileStatus := .error, progress := 100,
                  extracted := none, active := false } := by
              simp [MultiFileUpload.pollTick, MultiFileUpload.maxAttempts, hs]
            rw [hstep, foldl_pollTick_inactive _ _ rfl]
            refine ⟨le_refl _, ?_, fun _ _ => ⟨rfl, rfl, rfl⟩⟩
            rintro ⟨i, hi, r', hr', hp⟩
            have hi0 : i = 0 := by omega
            subst hi0
            simp only [List.getElem?_cons_zero, Option.some.injEq] at hr'
            subst hr'
            simp [MultiFileUpload.isProcessed, hs] at hp
          · have hstep : MultiFileUpload.pollTick
                { attempts := a, fileStatus := .processing, progress := 100,
                  extracted := none, active := true } (.ok s ex) =
                { attempts := a + 1, fileStatus := .processing, progress := 100,
                  extracted := none, active := true } := by
              simp [MultiFileUpload.pollTick, MultiFileUpload.maxAttempts, hs, hcap]
            rw [hstep]
            refine ⟨(ih (a + 1) herr' (by omega)).1, ?_, ?_⟩
            · rintro ⟨i, hi, r', hr', hp⟩
              cases i with
              | zero =>
                  simp only [List.getElem?_cons_zero, Option.some.injEq] at hr'
                  subst hr'
                  simp [MultiFileUpload.isProcessed, hs] at hp
              | succ j =>
                  rw [List.getElem?_cons_succ] at hr'
                  exact (ih (a + 1) herr' (by omega)).2.1 ⟨j, by omega, r', hr', hp⟩
            · intro hall hlen
              refine (ih (a + 1) herr' (by omega)).2.2 ?_ ?_
              · intro j r' hjr
                exact hall (j + 1) r' (by rw [List.getElem?_cons_succ]; exact hjr)
              · simp only [List.length_cons] at hlen
                omega

/-- C7 (amended): provided every status fetch succeeds (no polling tick
throws), `pollForCompletion` performs at most 30 polling attempts, stops as
soon as the fetched status is processed (marking the file complete), and
otherwise stops after the 30th attempt marking the file as error; when
fetches throw, the catch branch skips the attempt cap and the loop keeps
running. -/
theorem poll_completion_bounded (resps : List MultiFileUpload.PollResponse)
    (herr : MultiFileUpload.PollResponse.fetchError ∉ resps) :
    (MultiFileUpload.runPoll resps).attempts ≤ 30 ∧
    ((∃ i < 30, ∃ r, resps[i]? = some r ∧ MultiFileUpload.isProcessed r = true) →
      (MultiFileUpload.runPoll resps).fileStatus = .complete ∧
      (MultiFileUpload.runPoll resps).active = false) ∧
    ((∀ (i : Nat) (r : MultiFileUpload.PollResponse), resps[i]? = some r → MultiFileUpload.isProcessed r = false) →
      30 ≤ resps.length →
      (MultiFileUpload.runPoll resps).fileStatus = .error ∧
      (MultiFileUpload.runPoll resps).attempts = 30 ∧
      (MultiFileUpload.runPoll resps).active = false) := by
  have h := poll_loop_invariant resps 0 herr (by omega)
  simpa [MultiFileUpload.runPoll, MultiFileUpload.initialPollState] using h

/-- Witness for C7's amended theorem: a stream whose second fetch reports
processed makes the poll stop with the file marked complete. -/
theorem poll_completion_bounded_witness :
    (MultiFileUpload.runPoll
        [MultiFileUpload.PollResponse.ok "processing" none,
         MultiFileUpload.PollResponse.ok "processed" (some "fields")]).fileStatus =
      MultiFileUpload.FileStatus.complete ∧
    (MultiFileUpload.runPoll
        [MultiFileUpload.PollResponse.ok "processing" none,
         MultiFileUpload.PollResponse.ok "processed" (some "fields")]).active = false :=
  (poll_completion_bounded
      [MultiFileUpload.PollResponse.ok "processing" none,
       MultiFileUpload.PollResponse.ok "processed" (some "fields")]
      (by decide)).2.1
    ⟨1, by decide, MultiFileUpload.PollResponse.ok "processed" (some "fields"), rfl, by decide⟩

/-- Modelled from the spec: the fixed reason-code taxonomy of sections
4.1-4.2 (the backend validator/guardrail code is not in the repository
snapshot). -/
inductive ReasonCode where
  | POLICY_INACTIVE
  | WAITING_PERIOD
  | MEMBER_NOT_COVERED
  | SERVICE_NOT_COVERED
  | EXCLUDED_CONDITION
  | PRE_AUTH_MISSING
  | ANNUAL_LIMIT_EXCEEDED
  | SUB_LIMIT_EXCEEDED
  | PER_CLAIM_EXCEEDED
  | MISSING_DOCUMENTS
  | ILLEGIBLE_DOCUMENTS
  | INVALID_PRESCRIPTION
  | DOCTOR_REG_INVALID
  | DATE_MISMATCH
  | PATIENT_MISMATCH
  | DUPLICATE_CLAIM
  | BELOW_MIN_AMOUNT
  | LATE_SUBMISSION
deriving DecidableEq, BEq, Repr

/-- Modelled from the spec: finding severity, informational or hard_fail
(section 3, ValidationFinding). -/
inductive Severity where
  | informational
  | hard_fail
deriving DecidableEq, BEq, Repr

/-- Modelled from the spec: a validator's structured finding (section 3);
produced and consumed within one adjudication run. -/
structure ValidationFinding where
  validator_name : String
  passed : Bool
  reason_codes : List ReasonCode
  severity : Severity
deriving DecidableEq, Repr

/-- Modelled from the spec: the claim fields the guardrail layer inspects —
the claimed amount and how many days after the treatment date the claim was
submitted. -/
structure ClaimRecord where
  claimed_amount : ℚ
  submission_delay_days : ℕ
deriving DecidableEq, Repr

/-- Modelled from the spec: the policy holder's annual-limit account
(section 3, PolicyHolder). -/
structure PolicyHolderAccount where
  annual_limit : ℚ
  annual_limit_used : ℚ
deriving DecidableEq, Repr

/-- Modelled from the spec: the maximum approvable remainder of the annual
limit, computed by the Limit Validator for the PARTIAL path (section 4.1). -/
def annualRemaining (ph : PolicyHolderAccount) : ℚ :=
  max (ph.annual_limit - ph.annual_limit_used) 0

/-- Modelled from the spec: the decision record of one adjudication run
(section 3, AdjudicationDecision). -/
structure AdjudicationDecision where
  decision : Decision
  approved_amount : ℚ
  rejection_reasons : List ReasonCode
  confidence_score : ℚ
deriving DecidableEq, Repr

/-- Modelled from the spec: the LLM-assisted enrichment's output schema —
decision, approved_amount, reasons, notes, next_steps (section 4.3); the
confidence score is not part of it, being recomputed by the scorer every
run (section 4.4). -/
structure LLMEnrichment where
  decision : Decision
  approved_amount : ℚ
  rejection_reasons : List ReasonCode
  notes : String
  next_steps : String
deriving DecidableEq, Repr

/-- Modelled from the spec: the configured minimum claim amount (₹500
equivalent, section 4.2). -/
def minClaimAmount : ℚ := 500

/-- Modelled from the spec: the configured submission deadline in days from
the treatment date (30, section 4.2). -/
def lateSubmissionDays : ℕ := 30

/-- Modelled from the spec: the high-value manual-review threshold (₹25,000,
section 4.3). -/
def highValueThreshold : ℚ := 25000

/-- Modelled from the spec: the manual-review confidence threshold (0.70,
section 4.3). -/
def manualReviewThreshold : ℚ := 7/10

/-- Modelled from the spec: some validator reported a hard_fail finding
carrying the given reason code. -/
def hasHardFailCode (findings : List ValidationFinding) (c : ReasonCode) : Bool :=
  findings.any fun f => f.severity == Severity.hard_fail && f.reason_codes.contains c

/-- Modelled from the spec: the guardrail / kill-switch layer (section 4.2),
an ordered rule list applied after the validators and before synthesis;
the first matching rule returns the triggering codes, none passes control to
the synthesizer.  A duplicate-claim fraud flag at high confidence is
modelled as a hard_fail DUPLICATE_CLAIM finding. -/
def killSwitch (claim : ClaimRecord) (ph : PolicyHolderAccount)
    (findings : List ValidationFinding) : Option (List ReasonCode) :=
  if hasHardFailCode findings .POLICY_INACTIVE then some [.POLICY_INACTIVE]
  else if hasHardFailCode findings .ANNUAL_LIMIT_EXCEEDED && decide (annualRemaining ph = 0) then
    some [.ANNUAL_LIMIT_EXCEEDED]
  else if hasHardFailCode findings .DUPLICATE_CLAIM then some [.DUPLICATE_CLAIM]
  else if claim.claimed_amount < minClaimAmount then some [.BELOW_MIN_AMOUNT]
  else if lateSubmissionDays < claim.submission_delay_days then some [.LATE_SUBMISSION]
  else none

/-- Modelled from the spec: the number of failing validators in one run. -/
def failureCount (findings : List ValidationFinding) : ℕ :=
  (findings.filter fun f => !f.passed).length

/-- Modelled from the spec: the Fraud Detector raised a high-severity flag
(section 4.4). -/
def highSeverityFraud (findings : List ValidationFinding) : Bool :=
  findings.any fun f =>
    f.validator_name == "fraud" && !f.passed && f.severity == Severity.hard_fail

/-- Modelled from the spec: the Fraud Detector raised an informational flag
(sections 4.1, 4.3). -/
def informationalFraudFlag (findings : List ValidationFinding) : Bool :=
  findings.any fun f =>
    f.validator_name == "fraud" && !f.passed && f.severity == Severity.informational

/-- Modelled from the spec: the Confidence Scorer (section 4.4) with the
documented default interpolation — 0.95 when all validators pass, 0.80 for
exactly one failure, 0.60 for two or more failures or any high-severity
fraud flag. -/
def confidenceScore (failures : ℕ) (highFraud : Bool) : ℚ :=
  if highFraud then 3/5
  else if failures = 0 then 19/20
  else if failures = 1 then 4/5
  else 3/5

/-- Modelled from the spec: the union of all hard_fail reason codes of the
failing validators (section 4.3 step 1). -/
def hardFailCodes (findings : List ValidationFinding) : List ReasonCode :=
  (findings.filter fun f => !f.passed && f.severity == Severity.hard_fail).flatMap
    (fun f => f.reason_codes)

/-- Modelled from the spec: the capped approvable amount from the annual
remainder (section 4.3 step 2; sub-limits and co-pay are not modelled). -/
def cappedAmount (claim : ClaimRecord) (ph : PolicyHolderAccount) : ℚ :=
  min claim.claimed_amount (annualRemaining ph)

/-- Modelled from the spec: the Decision Synthesizer (section 4.3).  When
the LLM enrichment strategy is enabled its schema-conforming output supplies
decision, amount and reasons; the confidence score always comes from the
scorer.  The deterministic fallback applies steps 1-4 of section 4.3. -/
def synthesize (claim : ClaimRecord) (ph : PolicyHolderAccount)
    (findings : List ValidationFinding) (llm : Option LLMEnrichment) : AdjudicationDecision :=
  match llm with
  | some e =>
      { decision := e.decision, approved_amount := e.approved_amount,
        rejection_reasons := e.rejection_reasons,
        confidence_score := confidenceScore (failureCount findings) (highSeverityFraud findings) }
  | none =>
      if hardFailCodes findings ≠ [] then
        { decision := .REJECTED, approved_amount := 0,
          rejection_reasons := hardFailCodes findings,
          confidence_score := confidenceScore (failureCount findings) (highSeverityFraud findings) }
      else if cappedAmount claim ph < claim.claimed_amount then
        { decision := .PARTIAL, approved_amount := cappedAmount claim ph,
          rejection_reasons := [.ANNUAL_LIMIT_EXCEEDED],
          confidence_score := confidenceScore (failureCount findings) (highSeverityFraud findings) }
      else if informationalFraudFlag findings ||
          confidenceScore (failureCount findings) (highSeverityFraud findings) <
            manualReviewThreshold ||
          highValueThreshold < claim.claimed_amount then
        { decision := .MANUAL_REVIEW, approved_amount := 0, rejection_reasons := [],
          confidence_score := confidenceScore (failureCount findings) (highSeverityFraud findings) }
      else
        { decision := .APPROVED, approved_amount := claim.claimed_amount,
          rejection_reasons := [],
          confidence_score := confidenceScore (failureCount findings) (highSeverityFraud findings) }

/-- Modelled from the spec: one adjudication run (section 4.5) — guardrails
first (their verdict is a deterministic rejection with confidence 1.0 and
bypasses synthesis, overriding any LLM output), then the synthesizer. -/
def adjudicate (claim : ClaimRecord) (ph : PolicyHolderAccount)
    (findings : List ValidationFinding) (llm : Option LLMEnrichment) : AdjudicationDecision :=
  match killSwitch claim ph findings with
  | some codes =>
      { decision := .REJECTED, approved_amount := 0,
        rejection_reasons := codes, confidence_score := 1 }
  | none => synthesize claim ph findings llm

/-- The scorer's value always lies in the unit interval. -/
theorem confidenceScore_bounds (n : ℕ) (hf : Bool) :
    0 ≤ confidenceScore n hf ∧ confidenceScore n hf ≤ 1 := by
  unfold confidenceScore
  split_ifs <;> norm_num

/-- C1: whenever the Limit Validator reports ANNUAL_LIMIT_EXCEEDED as a
hard_fail and the remaining annual limit is zero, the pipeline's final
decision is REJECTED, regardless of all other validator outcomes and of any
LLM enrichment output. -/
theorem annual_limit_guardrail_rejects (claim : ClaimRecord) (ph : PolicyHolderAccount)
    (findings : List ValidationFinding) (llm : Option LLMEnrichment)
    (hale : hasHardFailCode findings .ANNUAL_LIMIT_EXCEEDED = true)
    (hzero : annualRemaining ph = 0) :
    (adjudicate claim ph findings llm).decision = Decision.REJECTED := by
  unfold adjudicate killSwitch
  by_cases hpi : hasHardFailCode findings .POLICY_INACTIVE = true
  · simp [hpi]
  · rw [Bool.not_eq_true] at hpi
    simp [hpi, hale, hzero]

/-- Witness for C1: a concrete exhausted policy (50000 used of 50000) with a
hard_fail ANNUAL_LIMIT_EXCEEDED finding is rejected even though every other
validator passed and the LLM enrichment recommended APPROVED. -/
theorem annual_limit_guardrail_rejects_witness :
    (adjudicate { claimed_amount := 1000, submission_delay_days := 5 }
        { annual_limit := 50000, annual_limit_used := 50000 }
        [{ validator_name := "limit", passed := false,
           reason_codes := [.ANNUAL_LIMIT_EXCEEDED], severity := .hard_fail },
         { validator_name := "eligibility", passed := true,
           reason_codes := [], severity := .informational }]
        (some { decision := .APPROVED, approved_amount := 1000,
                rejection_reasons := [], notes := "", next_steps := "" })).decision =
      Decision.REJECTED :=
  annual_limit_guardrail_rejects _ _ _ _ (by decide) (by simp [annualRemaining])

/-- C2: every adjudication run's confidence_score lies in [0,1]; the scorer
yields 0.95 when all validators pass; and the scorer is monotonically
non-increasing in the count of failing validators. -/
theorem confidence_score_properties :
    (∀ (claim : ClaimRecord) (ph : PolicyHolderAccount)
        (findings : List ValidationFinding) (llm : Option LLMEnrichment),
      0 ≤ (adjudicate claim ph findings llm).confidence_score ∧
      (adjudicate claim ph findings llm).confidence_score ≤ 1) ∧
    (∀ findings : List ValidationFinding, (∀ f ∈ findings, f.passed = true) →
      confidenceScore (failureCount findings) (highSeverityFraud findings) = 19/20) ∧
    (∀ (hf : Bool) (m n : ℕ), m ≤ n → confidenceScore n hf ≤ confidenceScore m hf) := by
  refine ⟨?_, ?_, ?_⟩
  · intro claim ph findings llm
    cases hks : killSwitch claim ph findings with
    | some codes =>
        simp only [adjudicate, hks]
        norm_num
    | none =>
        simp only [adjudicate, hks, synthesize]
        cases llm with
        | some e => exact confidenceScore_bounds _ _
        | none => split_ifs <;> exact confidenceScore_bounds _ _
  · intro findings hall
    have h0 : failureCount findings = 0 := by
      simp only [failureCount, List.length_eq_zero, List.filter_eq_nil_iff]
      intro f hf
      simp [hall f hf]
    have hfr : highSeverityFraud findings = false := by
      simp only [highSeverityFraud, List.any_eq_false]
      intro f hf
      simp [hall f hf]
    rw [h0, hfr]
    norm_num [confidenceScore]
  · intro hf m n hmn
    cases hf with
    | true => simp [confidenceScore]
    | false =>
        unfold confidenceScore
        simp only [Bool.false_eq_true, if_false]
        split_ifs <;> first | omega | norm_num

/-- Witness for C2: the scorer returns 0.95 on a concrete all-pass finding
set, and three failures score no higher than one failure. -/
theorem confidence_score_properties_witness :
    confidenceScore
        (failureCount [{ validator_name := "eligibility", passed := true,
                         reason_codes := [], severity := Severity.informational }])
        (highSeverityFraud [{ validator_name := "eligibility", passed := true,
                              reason_codes := [], severity := Severity.informational }]) =
      19/20 ∧
    confidenceScore 3 false ≤ confidenceScore 1 false :=
  ⟨confidence_score_properties.2.1
      [{ validator_name := "eligibility", passed := true,
         reason_codes := [], severity := Severity.informational }] (by decide),
   confidence_score_properties.2.2 false 1 3 (by decide)⟩

end InsuranceClaims
